import Mathlib

/-!
Shallow embedding of the SocialMedia_Automation_System workflow core.

Modelling conventions:
* Python strings are `Str := List Char`; Python `str.strip` is `trimStr`,
  slicing `s[:n]` is `List.take n`, and `s[1:-1]` is `(s.drop 1).dropLast`.
* Python floats carrying relevance/engagement scores are modelled as `ℚ`
  (the code only multiplies, divides and compares them; literals `0.6`,
  `0.4`, `0.5` are exact rationals here).
* The shared LangGraph state dict (`src/workflow/state.py`) is the record
  `WorkflowState`; keys that may be absent are `Option` fields and flag
  keys read only for truthiness are `Bool` fields defaulting to `false`;
  `state.get(k, d)` is `Option.getD`.
* Error strings written to `state["error"]` are the constructors of
  `ErrMsg`; dynamic exception text is the constructor's `Str` argument.
* Calls to external services (Groq LLM, Reddit, Twitter) are oracle
  parameters: the already-decoded response for the success path, `none`
  (or a `failed`/`svcError` constructor) for the exception paths the
  code catches.  Database persistence is side-effect-only in the source
  (every write is wrapped in try/except or feeds no later in-memory
  read on the modelled paths) and is not modelled.
* Python `sorted(..., key=k, reverse=True)` and `list.sort(key=k,
  reverse=True)` are stable descending sorts, modelled by `sortDescBy`
  (insertion sort with the total preorder `key b ≤ key a`, which is
  stable and sorts descending).
-/

/-- Python strings, modelled as character lists. -/
abbrev Str := List Char

/-- Python `str.strip()`: drop whitespace from both ends. -/
def trimStr (s : Str) : Str :=
  ((s.dropWhile Char.isWhitespace).reverse.dropWhile Char.isWhitespace).reverse

/-- Python `if t.startswith(q) and t.endswith(q): t = t[1:-1]`
(drafting_agent.py lines 82-85 and 192-193). -/
def strip_quote (q : Char) (t : Str) : Str :=
  if t.head? = some q ∧ t.getLast? = some q then (t.drop 1).dropLast else t

/-- Stable descending sort by a key: Python `sorted(l, key=key, reverse=True)`. -/
def sortDescBy {α β : Type} [LinearOrder β] (key : α → β) (l : List α) : List α :=
  List.insertionSort (fun a b => key b ≤ key a) l

/-- The `WorkflowStep` enum from `src/workflow/state.py`. -/
inductive WorkflowStep where
  | START
  | INTENT_UNDERSTANDING
  | RESEARCH
  | FILTER
  | SUMMARIZE
  | DRAFT
  | HUMAN_REVIEW
  | PUBLISH
  | END
deriving DecidableEq

/-- The distinct strings the agents write into `state["error"]`.
Constructor arguments carry the interpolated exception text. -/
inductive ErrMsg where
  /-- The message "No user query provided" (intent_agent.py line 71) -/
  | noUserQuery
  /-- The message "Failed to parse intent: ..." (intent_agent.py line 100) -/
  | intentParseFailed (msg : Str)
  /-- The message "Intent extraction failed: ..." (intent_agent.py line 103) -/
  | intentFailed (msg : Str)
  /-- The message "No topic provided for research" (research_agent.py line 130) -/
  | noTopic
  /-- The message "No filtered posts to summarize" (summarization_agent.py line 74) -/
  | noFilteredPosts
  /-- The message "Failed to generate insights: ..." (summarization_agent.py line 130) -/
  | insightsFailed (msg : Str)
  /-- The message "No summary available for drafting" (drafting_agent.py line 117) -/
  | noSummary
  /-- The message "Failed to create revision: ..." (drafting_agent.py line 228) -/
  | revisionFailed (msg : Str)
  /-- The message "Publishing failed: ..." (publishing_agent.py line 128) -/
  | publishFailed (msg : Str)
deriving DecidableEq

/-- A Reddit post dictionary as built by `RedditClient._parse_post`
(reddit_client.py lines 121-156). `engagement_score` is computed there
as `score + 2 * num_comments`; the agents read it as a given field. -/
structure Post where
  post_id : Str
  title : Str := []
  content : Str := []
  author : Str := []
  subreddit : Str := []
  score : Int := 0
  num_comments : Int := 0
  engagement_score : Int := 0
deriving DecidableEq

/-- A post dict after the filtering agent adds `relevance_score` and
`combined_score` (filtering_agent.py lines 144-148: `{**post, ...}`). -/
structure ScoredPost extends Post where
  relevance_score : ℚ
  combined_score : ℚ
deriving DecidableEq

/-- The LangGraph `WorkflowState` TypedDict (`src/workflow/state.py`),
plus the extra keys agents write at runtime (`expert_opinions`,
`review_requested`, `approved`, `revision_requested`, `revision_feedback`,
`rejected`, `tweet_id`). Absent keys are `none` / `false`. -/
structure WorkflowState where
  workflow_id : Nat
  current_step : WorkflowStep
  user_query : Str
  topic : Option Str := none
  scope : Option Str := none
  tone : Option Str := none
  raw_tweets : Option (List Post) := none
  filtered_tweets : Option (List ScoredPost) := none
  summary : Option Str := none
  key_trends : Option (List Str) := none
  expert_opinions : Option (List Str) := none
  draft_content : Option Str := none
  draft_version : Option Nat := none
  review_requested : Bool := false
  approved : Bool := false
  revision_requested : Bool := false
  revision_feedback : Option Str := none
  rejected : Bool := false
  published : Bool := false
  tweet_id : Option Str := none
  tweet_url : Option Str := none
  error : Option ErrMsg := none
deriving DecidableEq

/-- Embedding of `create_initial_state` (state.py lines 67-84): only `workflow_id`,
`current_step`, `user_query`, `draft_version` and `published` are set. -/
def create_initial_state (user_query : Str) (workflow_id : Nat) : WorkflowState :=
  { workflow_id := workflow_id
    current_step := .START
    user_query := user_query
    draft_version := some 0
    published := false }

/-- Outcome of one intent-stage LLM round trip, as the `try/except` in
`IntentAgent.process` distinguishes it: `svcError` is an exception from
`invoke_llm` (generic `except Exception`), `decodeError` is
`json.JSONDecodeError` from `json.loads`, `ok` is the decoded object. -/
inductive LLMResult (α : Type) where
  | svcError (msg : Str)
  | decodeError (msg : Str)
  | ok (val : α)

/-- Outcome of an LLM round trip where the code distinguishes only
decoded success from a caught failure carrying exception text. -/
inductive Decoded (α : Type) where
  | failed (msg : Str)
  | ok (val : α)

/-- The JSON object the intent agent expects; each field may be absent. -/
structure IntentJson where
  topic : Option Str := none
  scope : Option Str := none
  tone : Option Str := none

def sLatest : Str := "latest".toList
def sInformative : Str := "informative".toList
def sDay : Str := "day".toList

/-- Embedding of `IntentAgent.process` (intent_agent.py lines 57-104).  Returns the
updated state and whether the LLM was invoked.  Note the guard is
`if not user_query`, which only catches the exactly-empty string, and
`intent_data.get("topic", "")` defaults an absent topic to `""` with no
error; only scope/tone defaults match the docstring. -/
def IntentAgent.process (resp : LLMResult IntentJson) (s : WorkflowState) :
    WorkflowState × Bool :=
  if s.user_query = [] then ({ s with error := some .noUserQuery }, false)
  else
    match resp with
    | .ok j =>
        ({ s with
            topic := some (j.topic.getD [])
            scope := some (j.scope.getD sLatest)
            tone := some (j.tone.getD sInformative)
            current_step := .INTENT_UNDERSTANDING }, true)
    | .decodeError msg => ({ s with error := some (.intentParseFailed msg) }, true)
    | .svcError msg => ({ s with error := some (.intentFailed msg) }, true)

/-- The static topic→subreddit table of
`RedditClient.get_relevant_subreddits` (reddit_client.py lines 158-188),
in Python dict insertion order. -/
def subreddit_map : List (Str × List Str) :=
  [ ("ai".toList, ["artificial".toList, "MachineLearning".toList, "OpenAI".toList,
      "ChatGPT".toList, "singularity".toList])
  , ("crypto".toList, ["CryptoCurrency".toList, "Bitcoin".toList, "ethereum".toList,
      "CryptoMarkets".toList])
  , ("technology".toList, ["technology".toList, "tech".toList, "gadgets".toList,
      "Futurology".toList])
  , ("politics".toList, ["politics".toList, "worldnews".toList, "news".toList])
  , ("business".toList, ["business".toList, "Economics".toList, "stocks".toList,
      "investing".toList])
  , ("science".toList, ["science".toList, "EverythingScience".toList, "askscience".toList])
  , ("programming".toList, ["programming".toList, "coding".toList,
      "learnprogramming".toList, "webdev".toList])
  , ("gaming".toList, ["gaming".toList, "Games".toList, "pcgaming".toList])
  , ("sports".toList, ["sports".toList, "nfl".toList, "nba".toList, "soccer".toList]) ]

/-- Embedding of `RedditClient.get_relevant_subreddits`: first map entry whose key is a
substring of the lowercased topic or vice versa, truncated to 3; default
`["news", "worldnews"]`. -/
def get_relevant_subreddits (topic : Str) : List Str :=
  let topic_lower := topic.map Char.toLower
  match subreddit_map.find?
      (fun kv => decide (kv.1 <:+: topic_lower) || decide (topic_lower <:+: kv.1)) with
  | some kv => kv.2.take 3
  | none => ["news".toList, "worldnews".toList]

/-- The validated research strategy (research_agent.py lines 75-83). -/
structure Strategy where
  subreddits : List Str
  search_query : Str
  time_filter : Str

/-- The JSON object the strategy LLM may return; fields may be absent. -/
structure StratJson where
  subreddits : Option (List Str) := none
  search_query : Option Str := none
  time_filter : Option Str := none

/-- Embedding of `ResearchAgent._generate_research_strategy` (research_agent.py lines
58-91). `resp = none` is the caught `(json.JSONDecodeError, KeyError)`
fallback; a present but absent-or-empty `subreddits` field also falls
back to the static table. -/
def generate_research_strategy (resp : Option StratJson) (topic scope : Str) : Strategy :=
  match resp with
  | some j =>
      { subreddits :=
          match j.subreddits with
          | some l => if l = [] then get_relevant_subreddits topic else l
          | none => get_relevant_subreddits topic
        search_query := j.search_query.getD topic
        time_filter := j.time_filter.getD sDay }
  | none =>
      { subreddits := get_relevant_subreddits topic
        search_query := topic
        time_filter := sDay }

/-- Embedding of `ResearchAgent.process` (research_agent.py lines 115-180).  `search`
is the Reddit client (`_search_reddit`; an exception there yields `[]`).
The merged results are sorted descending by `engagement_score` (stable)
and placed on the state unchanged otherwise — in particular they are not
deduplicated in memory; only the swallowed-exception DB loop skips
duplicate rows. The unused `scope` binding mirrors the source. -/
def ResearchAgent.process (stratResp : Option StratJson) (search : Strategy → List Post)
    (s : WorkflowState) : WorkflowState :=
  let topic := s.topic.getD []
  let scope := s.scope.getD sLatest
  if topic = [] then { s with error := some .noTopic }
  else
    let strategy := generate_research_strategy stratResp topic scope
    let posts := search strategy
    let sorted_posts := sortDescBy (fun p => p.engagement_score) posts
    { s with raw_tweets := some sorted_posts, current_step := .RESEARCH }

/-- One item of the `"scores"` array in the filtering LLM response
(filtering_agent.py lines 92-97): `item.get("post_id")` may be absent,
`item.get("score", 0.5)` defaults to 0.5. -/
structure ScoreItem where
  post_id : Option Str := none
  score : Option ℚ := none

/-- Python dict assignment `scores[post_id] = v`: overwrite in place or
append. Lookups use the latest value for each key, as in the source dict. -/
def dict_insert (d : List (Str × ℚ)) (k : Str) (v : ℚ) : List (Str × ℚ) :=
  if (d.lookup k).isSome then d.map (fun kv => if kv.1 = k then (k, v) else kv)
  else d ++ [(k, v)]

/-- Embedding of `FilteringAgent._score_posts` (filtering_agent.py lines 55-104).
`decoded = none` is the caught `(json.JSONDecodeError, KeyError,
ValueError)` branch: every input post gets the neutral score 0.5.  On
success the score mapping keeps items with a truthy `post_id` (absent or
empty ids are skipped).  The prompt-only inputs (topic, the `posts[:20]`
summary) do not affect the returned mapping beyond the oracle. -/
def FilteringAgent.score_posts (topic : Str) (decoded : Option (List ScoreItem))
    (posts : List Post) : List (Str × ℚ) :=
  if posts.isEmpty then []
  else
    match decoded with
    | some items =>
        items.foldl (fun d item =>
          match item.post_id with
          | some pid => if pid = [] then d else dict_insert d pid (item.score.getD 0.5)
          | none => d) []
    | none => posts.map (fun p => (p.post_id, (0.5 : ℚ)))

/-- Embedding of `max(p['engagement_score'] for p in raw_posts)` (filtering_agent.py
line 138); the agent only evaluates it on a non-empty list. -/
def maxEngagement : List Post → Int
  | [] => 0
  | p :: rest => rest.foldl (fun m q => max m q.engagement_score) p.engagement_score

/-- Embedding of `max(...) or 1` as the normalisation denominator (filtering_agent.py
line 138): a zero maximum (falsy) becomes 1. -/
def engDenom (posts : List Post) : ℚ :=
  if maxEngagement posts = 0 then 1 else (maxEngagement posts : ℚ)

/-- The scoring loop of `FilteringAgent.process` (filtering_agent.py
lines 132-148): each post gets `relevance = scores.get(post_id, 0.5)`,
`engagement_norm = engagement_score / (max(...) or 1)` and
`combined_score = relevance * 0.6 + engagement_norm * 0.4`. -/
def FilteringAgent.score_combine (relevance_scores : List (Str × ℚ))
    (raw_posts : List Post) : List ScoredPost :=
  raw_posts.map (fun post =>
    let relevance := (relevance_scores.lookup post.post_id).getD 0.5
    let max_engagement := engDenom raw_posts
    let engagement_norm := (post.engagement_score : ℚ) / max_engagement
    let combined_score := relevance * 0.6 + engagement_norm * 0.4
    { toPost := post, relevance_score := relevance, combined_score := combined_score })

/-- Embedding of `FilteringAgent.process` (filtering_agent.py lines 106-186).
Returns the updated state and whether the relevance LLM was invoked.
Empty input short-circuits to `filtered_tweets = []` with no LLM call;
otherwise posts are scored, stably sorted descending by
`combined_score` and truncated to `top_k`. -/
def FilteringAgent.process (top_k : Nat) (decoded : Option (List ScoreItem))
    (s : WorkflowState) : WorkflowState × Bool :=
  let topic := s.topic.getD []
  let raw_posts := s.raw_tweets.getD []
  if raw_posts.isEmpty then ({ s with filtered_tweets := some [] }, false)
  else
    let relevance_scores := FilteringAgent.score_posts topic decoded raw_posts
    let scored_posts := FilteringAgent.score_combine relevance_scores raw_posts
    let filtered_posts := (sortDescBy ScoredPost.combined_score scored_posts).take top_k
    ({ s with filtered_tweets := some filtered_posts, current_step := .FILTER }, true)

/-- The JSON object the summarization agent expects. -/
structure SummJson where
  summary : Option Str := none
  key_trends : Option (List Str) := none
  expert_opinions : Option (List Str) := none

/-- Embedding of `SummarizationAgent.process` (summarization_agent.py lines 59-132).
Empty `filtered_tweets` fails fast; a decode failure sets the insights
error; success writes summary/trends/opinions with empty defaults. -/
def SummarizationAgent.process (resp : Decoded SummJson) (s : WorkflowState) :
    WorkflowState :=
  let filtered_posts := s.filtered_tweets.getD []
  if filtered_posts.isEmpty then { s with error := some .noFilteredPosts }
  else
    match resp with
    | .ok j =>
        { s with
            summary := some (j.summary.getD [])
            key_trends := some (j.key_trends.getD [])
            expert_opinions := some (j.expert_opinions.getD [])
            current_step := .SUMMARIZE }
    | .failed msg => { s with error := some (.insightsFailed msg) }

def sEllipsis : Str := "...".toList
def sHashMark : Str := " #".toList

/-- Embedding of `DraftingAgent._create_draft` (drafting_agent.py lines 53-98).
`llm = none` is the caught exception: the deterministic fallback
`f"{summary[:250]} #{topic.replace(' ', '')}"[:280]`.  On success the
response is stripped, unwrapped from matching double then single quotes,
and truncated to `280 - 3` characters plus `"..."` when over 280. -/
def DraftingAgent.create_draft (llm : Option Str) (topic summary : Str)
    (key_trends : List Str) (tone : Str) : Str :=
  match llm with
  | some resp =>
      let tweet := trimStr resp
      let tweet := strip_quote '"' tweet
      let tweet := strip_quote '\'' tweet
      if 280 < tweet.length then tweet.take (280 - 3) ++ sEllipsis else tweet
  | none => (summary.take 250 ++ sHashMark ++ topic.filter (fun c => c ≠ ' ')).take 280

/-- Embedding of `DraftingAgent.process` (drafting_agent.py lines 100-156): fails fast
without a summary, otherwise writes the draft and sets
`draft_version = 1` unconditionally (not an increment). -/
def DraftingAgent.process (llm : Option Str) (s : WorkflowState) : WorkflowState :=
  let topic := s.topic.getD []
  let summary := s.summary.getD []
  let key_trends := s.key_trends.getD []
  let tone := s.tone.getD sInformative
  if summary = [] then { s with error := some .noSummary }
  else
    let draft_content := DraftingAgent.create_draft llm topic summary key_trends tone
    { s with
        draft_content := some draft_content
        draft_version := some 1
        current_step := .DRAFT }

/-- Embedding of `DraftingAgent.create_revision` (drafting_agent.py lines 158-229):
`version = state.get("draft_version", 1) + 1`; on success the cleaned
revision (double-quote unwrap and 280-truncation only) is stored at that
version; on failure the error is set and the version is untouched. -/
def DraftingAgent.create_revision (llm : Decoded Str) (feedback : Str)
    (s : WorkflowState) : WorkflowState :=
  let version := s.draft_version.getD 1 + 1
  match llm with
  | .ok resp =>
      let revised := trimStr resp
      let revised := strip_quote '"' revised
      let revised := if 280 < revised.length then revised.take (280 - 3) ++ sEllipsis
        else revised
      { s with draft_content := some revised, draft_version := some version }
  | .failed msg => { s with error := some (.revisionFailed msg) }

def sTweetUrlBase : Str := "https://twitter.com/user/status/".toList

/-- Embedding of `PublishingAgent.request_human_review` (publishing_agent.py lines
36-61): pure presentation, sets the flag and the step. -/
def PublishingAgent.request_human_review (s : WorkflowState) : WorkflowState :=
  { s with review_requested := true, current_step := .HUMAN_REVIEW }

/-- Embedding of `PublishingAgent.handle_approval` (publishing_agent.py lines 63-138):
`resp` is the Twitter call outcome (tweet id on success). -/
def PublishingAgent.handle_approval (resp : Decoded Str) (s : WorkflowState) :
    WorkflowState :=
  match resp with
  | .ok tid =>
      { s with
          published := true
          tweet_id := some tid
          tweet_url := some (sTweetUrlBase ++ tid)
          current_step := .PUBLISH }
  | .failed msg => { s with error := some (.publishFailed msg) }

/-- Return values of `WorkflowGraph._should_publish`: the strings
"publish", "revise", "end". -/
inductive Route where
  | publish
  | revise
  | goEnd
deriving DecidableEq

/-- Embedding of `WorkflowGraph._should_publish` (graph.py lines 125-138). -/
def WorkflowGraph.should_publish (s : WorkflowState) : Route :=
  if s.approved then .publish
  else if s.revision_requested then .revise
  else .goEnd

/-- The per-node external-service responses for one graph run. -/
structure Oracles where
  intent : LLMResult IntentJson
  strategy : Option StratJson
  search : Strategy → List Post
  scores : Option (List ScoreItem)
  insights : Decoded SummJson
  draft : Option Str
  tweet : Decoded Str

/-- The draft → review → (publish | revise-loop | end) tail of the graph
(graph.py lines 72-85): the `"revise"` edge goes back to the `draft`
node, i.e. to `DraftingAgent.process`.  `fuel` bounds the human-driven
revision loop, which the graph itself leaves unbounded. -/
def WorkflowGraph.run_from_draft : Nat → Oracles → WorkflowState → WorkflowState
  | 0, _, s => s
  | fuel + 1, o, s =>
      let s := DraftingAgent.process o.draft s
      let s := PublishingAgent.request_human_review s
      match WorkflowGraph.should_publish s with
      | .publish => PublishingAgent.handle_approval o.tweet s
      | .revise => WorkflowGraph.run_from_draft fuel o s
      | .goEnd => s

/-- One invocation of the compiled graph (graph.py lines 47-87): the
unconditional chain intent → research → filter → summarize followed by
the draft/review tail.  No edge or node consults `state["error"]`. -/
def WorkflowGraph.run (fuel : Nat) (o : Oracles) (s : WorkflowState) : WorkflowState :=
  let s := (IntentAgent.process o.intent s).1
  let s := ResearchAgent.process o.strategy o.search s
  let s := (FilteringAgent.process 5 o.scores s).1
  let s := SummarizationAgent.process o.insights s
  WorkflowGraph.run_from_draft fuel o s

/-! ### Helper lemmas about the filtering stage -/

theorem sortDescBy_perm {α β : Type} [LinearOrder β] (key : α → β) (l : List α) :
    (sortDescBy key l).Perm l :=
  List.perm_insertionSort _ l

theorem sortDescBy_sorted {α β : Type} [LinearOrder β] (key : α → β) (l : List α) :
    (sortDescBy key l).Pairwise (fun a b => key b ≤ key a) := by
  letI : IsTotal α (fun a b => key b ≤ key a) := ⟨fun a b => le_total (key b) (key a)⟩
  letI : IsTrans α (fun a b => key b ≤ key a) := ⟨fun _ _ _ h h2 => le_trans h2 h⟩
  exact List.sorted_insertionSort _ l

theorem mem_score_combine {rs : List (Str × ℚ)} {raw : List Post} {p : ScoredPost}
    (hp : p ∈ FilteringAgent.score_combine rs raw) :
    p.relevance_score = ((rs.lookup p.post_id).getD 0.5) ∧
    p.combined_score
      = p.relevance_score * 0.6 + ((p.engagement_score : ℚ) / engDenom raw) * 0.4 := by
  obtain ⟨q, hq, rfl⟩ := List.mem_map.mp hp
  exact ⟨rfl, rfl⟩

theorem filtered_tweets_empty (top_k : Nat) (decoded : Option (List ScoreItem))
    {s : WorkflowState} (h : (s.raw_tweets.getD []).isEmpty = true) :
    (FilteringAgent.process top_k decoded s).1.filtered_tweets = some [] ∧
    (FilteringAgent.process top_k decoded s).2 = false := by
  simp [FilteringAgent.process, h]

theorem filtered_tweets_eq (top_k : Nat) (decoded : Option (List ScoreItem))
    {s : WorkflowState} (h : (s.raw_tweets.getD []).isEmpty = false) :
    ((FilteringAgent.process top_k decoded s).1.filtered_tweets).getD []
      = (sortDescBy ScoredPost.combined_score
          (FilteringAgent.score_combine
            (FilteringAgent.score_posts (s.topic.getD []) decoded (s.raw_tweets.getD []))
            (s.raw_tweets.getD []))).take top_k := by
  simp [FilteringAgent.process, h]

theorem mem_filtered {top_k : Nat} {decoded : Option (List ScoreItem)} {s : WorkflowState}
    {p : ScoredPost}
    (hp : p ∈ ((FilteringAgent.process top_k decoded s).1.filtered_tweets).getD []) :
    p ∈ FilteringAgent.score_combine
          (FilteringAgent.score_posts (s.topic.getD []) decoded (s.raw_tweets.getD []))
          (s.raw_tweets.getD []) := by
  cases hE : (s.raw_tweets.getD []).isEmpty with
  | true => rw [(filtered_tweets_empty top_k decoded hE).1] at hp; simp at hp
  | false =>
      rw [filtered_tweets_eq top_k decoded hE] at hp
      exact (sortDescBy_perm _ _).mem_iff.mp (List.take_subset _ _ hp)

theorem lookup_const_half (posts : List Post) (k : Str) :
    (((posts.map (fun p => (p.post_id, (0.5 : ℚ)))).lookup k).getD 0.5) = 0.5 := by
  induction posts with
  | nil => rfl
  | cons p rest ih =>
      by_cases h : k == p.post_id
      · simp [List.lookup, h]
      · simp only [List.map_cons, List.lookup, h]
        exact ih

/-! ### C3 and C4 -/

/-- C4: for every candidate list and every K the filter stage returns
exactly `min K (number of candidates)` ranked candidates, and the
relevance LLM is invoked exactly when the candidate list is non-empty
(so an empty list returns empty immediately with no reasoning call). -/
theorem C4_ranking_bound (top_k : Nat) (decoded : Option (List ScoreItem))
    (s : WorkflowState) :
    (((FilteringAgent.process top_k decoded s).1.filtered_tweets).getD []).length
        = min top_k (s.raw_tweets.getD []).length ∧
    (FilteringAgent.process top_k decoded s).2 = !(s.raw_tweets.getD []).isEmpty := by
  cases hE : (s.raw_tweets.getD []).isEmpty with
  | true =>
      obtain ⟨h1, h2⟩ := filtered_tweets_empty top_k decoded hE
      rw [List.isEmpty_iff] at hE
      simp [h1, h2, hE]
  | false =>
      refine ⟨?_, ?_⟩
      · rw [filtered_tweets_eq top_k decoded hE, List.length_take,
          (sortDescBy_perm _ _).length_eq, FilteringAgent.score_combine, List.length_map]
      · simp [FilteringAgent.process, hE]

/-- C3: with a malformed relevance-scoring response (`decoded = none`,
the caught decode-exception branch) the filter stage does not set
`error`, every ranked candidate carries relevance exactly 0.5, and the
resulting ranking is ordered by normalized engagement
(`engagement_score / (max or 1)`) descending. -/
theorem C3_malformed_scores_fallback (top_k : Nat) (s : WorkflowState) :
    ((FilteringAgent.process top_k none s).1.error = s.error) ∧
    ((((FilteringAgent.process top_k none s).1.filtered_tweets).getD []).map
          ScoredPost.relevance_score
        = List.replicate
            ((((FilteringAgent.process top_k none s).1.filtered_tweets).getD []).length)
            (0.5 : ℚ)) ∧
    ((((FilteringAgent.process top_k none s).1.filtered_tweets).getD []).Pairwise
        (fun a b =>
          (b.engagement_score : ℚ) / engDenom (s.raw_tweets.getD [])
            ≤ (a.engagement_score : ℚ) / engDenom (s.raw_tweets.getD []))) := by
  have herr : (FilteringAgent.process top_k none s).1.error = s.error := by
    cases hE : (s.raw_tweets.getD []).isEmpty <;> simp [FilteringAgent.process, hE]
  have hrel : ∀ p ∈ ((FilteringAgent.process top_k none s).1.filtered_tweets).getD [],
      p.relevance_score = (0.5 : ℚ) := by
    intro p hp
    cases hE : (s.raw_tweets.getD []).isEmpty with
    | true => rw [(filtered_tweets_empty top_k none hE).1] at hp; simp at hp
    | false =>
        have h5 := (mem_score_combine (mem_filtered hp)).1
        have hsc : FilteringAgent.score_posts (s.topic.getD []) none (s.raw_tweets.getD [])
            = (s.raw_tweets.getD []).map (fun q => (q.post_id, (0.5 : ℚ))) := by
          simp [FilteringAgent.score_posts, hE]
        rw [h5, hsc, lookup_const_half]
  have hcomb : ∀ p ∈ ((FilteringAgent.process top_k none s).1.filtered_tweets).getD [],
      p.combined_score
        = p.relevance_score * 0.6
            + ((p.engagement_score : ℚ) / engDenom (s.raw_tweets.getD [])) * 0.4 :=
    fun p hp => (mem_score_combine (mem_filtered hp)).2
  refine ⟨herr, ?_, ?_⟩
  · rw [List.eq_replicate_iff]
    refine ⟨by simp, ?_⟩
    intro b hb
    obtain ⟨p, hp, rfl⟩ := List.mem_map.mp hb
    exact hrel p hp
  · have hpair : (((FilteringAgent.process top_k none s).1.filtered_tweets).getD []).Pairwise
        (fun a b => ScoredPost.combined_score b ≤ ScoredPost.combined_score a) := by
      cases hE : (s.raw_tweets.getD []).isEmpty with
      | true => rw [(filtered_tweets_empty top_k none hE).1]; simp
      | false =>
          rw [filtered_tweets_eq top_k none hE]
          exact List.Pairwise.sublist (List.take_sublist _ _) (sortDescBy_sorted _ _)
    refine hpair.imp_of_mem ?_
    intro a b ha hb hab
    have hca := hcomb a ha
    have hcb := hcomb b hb
    rw [hrel a ha] at hca
    rw [hrel b hb] at hcb
    rw [hca, hcb] at hab
    linarith

/-! ### C5: the combined-score formula and the spec's Scenario B -/

theorem sortDescBy_pair {α β : Type} [LinearOrder β] (key : α → β) (a b : α)
    (h : key b ≤ key a) : sortDescBy key [a, b] = [a, b] := by
  unfold sortDescBy
  simp only [List.insertionSort, List.orderedInsert]
  rw [if_pos h]

/-- Scenario-B candidate a (spec §8): votes 10, comments 5, engagement 20. -/
def examplePostA : Post :=
  { post_id := ['a'], score := 10, num_comments := 5, engagement_score := 20 }

/-- Scenario-B candidate b: votes 0, comments 0, engagement 0. -/
def examplePostB : Post :=
  { post_id := ['b'], score := 0, num_comments := 0, engagement_score := 0 }

def exampleState : WorkflowState :=
  { create_initial_state ['q'] 1 with raw_tweets := some [examplePostA, examplePostB] }

/-- The scored record the filter builds for `examplePostA`. -/
def spA : ScoredPost :=
  { toPost := examplePostA
    relevance_score := 0.5
    combined_score := 0.5 * 0.6
      + ((examplePostA.engagement_score : ℚ) / engDenom (exampleState.raw_tweets.getD [])) * 0.4 }

/-- The scored record the filter builds for `examplePostB`. -/
def spB : ScoredPost :=
  { toPost := examplePostB
    relevance_score := 0.5
    combined_score := 0.5 * 0.6
      + ((examplePostB.engagement_score : ℚ) / engDenom (exampleState.raw_tweets.getD [])) * 0.4 }

/-- Candidates with zero engagement throughout (denominator-1 case). -/
def zeroEngPostA : Post := { post_id := ['a'] }

def zeroEngPostB : Post := { post_id := ['b'] }

def zeroEngState : WorkflowState :=
  { create_initial_state ['q'] 1 with raw_tweets := some [zeroEngPostA, zeroEngPostB] }

def zpA : ScoredPost :=
  { toPost := zeroEngPostA
    relevance_score := 0.5
    combined_score := 0.5 * 0.6
      + ((zeroEngPostA.engagement_score : ℚ) / engDenom (zeroEngState.raw_tweets.getD [])) * 0.4 }

def zpB : ScoredPost :=
  { toPost := zeroEngPostB
    relevance_score := 0.5
    combined_score := 0.5 * 0.6
      + ((zeroEngPostB.engagement_score : ℚ) / engDenom (zeroEngState.raw_tweets.getD [])) * 0.4 }

/-- C5: every ranked candidate's combined score is
`relevance * 0.6 + (engagement / (max-engagement or 1)) * 0.4`, a
candidate absent from the relevance mapping gets relevance 0.5, and on
the spec's Scenario-B input (engagements 20 and 0, relevance
unavailable) the combined scores are exactly 0.7 and 0.3 with the
higher-engagement candidate first; with an all-zero-engagement input the
denominator is 1 and every combined score is exactly 0.3. -/
theorem C5_combined_score_formula (top_k : Nat) (decoded : Option (List ScoreItem))
    (s : WorkflowState) :
    ((((FilteringAgent.process top_k decoded s).1.filtered_tweets).getD []).map
          ScoredPost.combined_score
        = (((FilteringAgent.process top_k decoded s).1.filtered_tweets).getD []).map
            (fun p => p.relevance_score * 0.6
                + ((p.engagement_score : ℚ) / engDenom (s.raw_tweets.getD [])) * 0.4)) ∧
    ((((FilteringAgent.process top_k decoded s).1.filtered_tweets).getD []).map
          ScoredPost.relevance_score
        = (((FilteringAgent.process top_k decoded s).1.filtered_tweets).getD []).map
            (fun p => ((FilteringAgent.score_posts (s.topic.getD []) decoded
                (s.raw_tweets.getD [])).lookup p.post_id).getD 0.5)) ∧
    ((((FilteringAgent.process 2 none exampleState).1.filtered_tweets).getD []).map
          (fun p => (p.post_id, p.combined_score))
        = [(['a'], (0.7 : ℚ)), (['b'], (0.3 : ℚ))]) ∧
    ((((FilteringAgent.process 2 none zeroEngState).1.filtered_tweets).getD []).map
          ScoredPost.combined_score = [(0.3 : ℚ), (0.3 : ℚ)]) := by
  refine ⟨?_, ?_, ?_, ?_⟩
  · exact List.map_congr_left fun p hp => (mem_score_combine (mem_filtered hp)).2
  · exact List.map_congr_left fun p hp => (mem_score_combine (mem_filtered hp)).1
  · have hfe : ((FilteringAgent.process 2 none exampleState).1.filtered_tweets).getD []
        = (sortDescBy ScoredPost.combined_score
            (FilteringAgent.score_combine
              (FilteringAgent.score_posts (exampleState.topic.getD []) none
                (exampleState.raw_tweets.getD []))
              (exampleState.raw_tweets.getD []))).take 2 :=
      filtered_tweets_eq 2 none rfl
    have hl : FilteringAgent.score_combine
        (FilteringAgent.score_posts (exampleState.topic.getD []) none
          (exampleState.raw_tweets.getD []))
        (exampleState.raw_tweets.getD []) = [spA, spB] := rfl
    have hA20 : examplePostA.engagement_score = 20 := rfl
    have hB0 : examplePostB.engagement_score = 0 := rfl
    have hle : spB.combined_score ≤ spA.combined_score := by
      norm_num [spA, spB, hA20, hB0, engDenom, maxEngagement, exampleState,
        create_initial_state, examplePostA, examplePostB]
    rw [hfe, hl, sortDescBy_pair _ _ _ hle]
    simp only [List.take, List.map_cons, List.map_nil, List.cons.injEq, Prod.mk.injEq]
    refine ⟨⟨rfl, ?_⟩, ⟨rfl, ?_⟩, trivial⟩
    · norm_num [spA, hA20, hB0, engDenom, maxEngagement, exampleState,
        create_initial_state, examplePostA, examplePostB]
    · norm_num [spB, hA20, hB0, engDenom, maxEngagement, exampleState,
        create_initial_state, examplePostA, examplePostB]
  · have hfe : ((FilteringAgent.process 2 none zeroEngState).1.filtered_tweets).getD []
        = (sortDescBy ScoredPost.combined_score
            (FilteringAgent.score_combine
              (FilteringAgent.score_posts (zeroEngState.topic.getD []) none
                (zeroEngState.raw_tweets.getD []))
              (zeroEngState.raw_tweets.getD []))).take 2 :=
      filtered_tweets_eq 2 none rfl
    have hl : FilteringAgent.score_combine
        (FilteringAgent.score_posts (zeroEngState.topic.getD []) none
          (zeroEngState.raw_tweets.getD []))
        (zeroEngState.raw_tweets.getD []) = [zpA, zpB] := rfl
    have hZA : zeroEngPostA.engagement_score = 0 := rfl
    have hZB : zeroEngPostB.engagement_score = 0 := rfl
    have hle : zpB.combined_score ≤ zpA.combined_score := by
      norm_num [zpA, zpB, hZA, hZB, engDenom, maxEngagement, zeroEngState,
        create_initial_state, zeroEngPostA, zeroEngPostB]
    rw [hfe, hl, sortDescBy_pair _ _ _ hle]
    simp only [List.take, List.map_cons, List.map_nil, List.cons.injEq]
    refine ⟨?_, ?_, trivial⟩
    · norm_num [zpA, hZA, hZB, engDenom, maxEngagement, zeroEngState,
        create_initial_state, zeroEngPostA, zeroEngPostB]
    · norm_num [zpB, hZA, hZB, engDenom, maxEngagement, zeroEngState,
        create_initial_state, zeroEngPostA, zeroEngPostB]

/-! ### C6: draft length invariant and truncation -/

/-- C6: every draft the drafting stage produces — LLM draft, fallback
template draft, and revision — has at most 280 characters, and a
generated draft whose cleaned text exceeds 280 characters is truncated
to 277 characters plus the three-character "..." marker, exactly 280. -/
theorem C6_draft_length_invariant (llm : Option Str) (topic summary : Str)
    (key_trends : List Str) (tone : Str) (r feedback : Str) (s : WorkflowState)
    (t : Str) :
    (DraftingAgent.create_draft llm topic summary key_trends tone).length ≤ 280 ∧
    (((DraftingAgent.create_revision (.ok r) feedback s).draft_content).getD []).length
        ≤ 280 ∧
    (280 < (strip_quote '\'' (strip_quote '"' (trimStr t))).length →
      DraftingAgent.create_draft (some t) topic summary key_trends tone
          = (strip_quote '\'' (strip_quote '"' (trimStr t))).take 277 ++ sEllipsis ∧
      (DraftingAgent.create_draft (some t) topic summary key_trends tone).length = 280) := by
  have hell : sEllipsis.length = 3 := rfl
  refine ⟨?_, ?_, ?_⟩
  · cases llm with
    | none =>
        simp only [DraftingAgent.create_draft, List.length_take]
        omega
    | some u =>
        by_cases h : 280 < (strip_quote '\'' (strip_quote '"' (trimStr u))).length
        · simp only [DraftingAgent.create_draft, if_pos h, List.length_append,
            List.length_take, hell]
          omega
        · simp only [DraftingAgent.create_draft, if_neg h]
          omega
  · by_cases h : 280 < (strip_quote '"' (trimStr r)).length
    · simp only [DraftingAgent.create_revision, if_pos h, Option.getD_some,
        List.length_append, List.length_take, hell]
      omega
    · simp only [DraftingAgent.create_revision, if_neg h, Option.getD_some]
      omega
  · intro h
    refine ⟨?_, ?_⟩
    · simp only [DraftingAgent.create_draft, if_pos h]
    · simp only [DraftingAgent.create_draft, if_pos h, List.length_append,
        List.length_take, hell]
      omega

set_option maxRecDepth 8000 in
/-- Witness for C6 at the spec's Scenario C: a 300-character generated
draft is truncated to 277 characters plus "...", exactly 280 in total. -/
theorem C6_draft_length_witness :
    280 < (strip_quote '\'' (strip_quote '"' (trimStr (List.replicate 300 'a')))).length ∧
    (DraftingAgent.create_draft (some (List.replicate 300 'a')) [] [] [] []
        = (strip_quote '\'' (strip_quote '"' (trimStr (List.replicate 300 'a')))).take 277
            ++ sEllipsis ∧
      (DraftingAgent.create_draft (some (List.replicate 300 'a')) [] [] [] []).length
          = 280) :=
  ⟨by decide, (C6_draft_length_invariant (some (List.replicate 300 'a')) [] [] [] [] []
      [] (create_initial_state [] 1) (List.replicate 300 'a')).2.2 (by decide)⟩

/-! ### C2: draft version behaviour -/

/-- A state mid-workflow holding a version-5 draft and a summary. -/
def c2State : WorkflowState :=
  { create_initial_state ['q'] 1 with
      summary := some ['s']
      draft_content := some ['o', 'l', 'd']
      draft_version := some 5 }

/-- C2 counterexample: the draft node — which the review loop's revise
edge re-enters — performs a successful redraft from `draft_version = 5`
yet leaves `draft_version = 1`: the version decreases by 4 rather than
increasing by exactly 1, refuting strict monotonicity across the loop. -/
theorem C2_version_counterexample :
    c2State.draft_version = some 5 ∧
    (DraftingAgent.process (some ['o', 'k']) c2State).error = none ∧
    (DraftingAgent.process (some ['o', 'k']) c2State).draft_content = some ['o', 'k'] ∧
    (DraftingAgent.process (some ['o', 'k']) c2State).draft_version = some 1 := by
  exact ⟨rfl, by decide, by decide, by decide⟩

/-- C2 amended: `draft_version` increases by exactly 1 only through
`create_revision` (prior version, default 1, plus one) and a failed
revision leaves it unchanged; the draft stage itself — the node the
revise edge re-enters — sets `draft_version` to exactly 1 regardless of
its prior value (and leaves it unchanged when it fails for lack of a
summary), so versions reset rather than strictly increase across the
graph's revision loop. -/
theorem C2_amended_version_behavior (s : WorkflowState) (llm : Option Str)
    (r msg feedback : Str) :
    ((DraftingAgent.process llm s).draft_version
        = if s.summary.getD [] = [] then s.draft_version else some 1) ∧
    ((DraftingAgent.create_revision (.ok r) feedback s).draft_version
        = some (s.draft_version.getD 1 + 1)) ∧
    ((DraftingAgent.create_revision (.failed msg) feedback s).draft_version
        = s.draft_version) := by
  refine ⟨?_, rfl, rfl⟩
  by_cases h : s.summary.getD [] = [] <;> simp [DraftingAgent.process, h]

/-! ### C1: behaviour of the orchestrator once `error` is set -/

/-- A fixed all-failing oracle set for concrete graph runs. -/
def oracleAllFail : Oracles :=
  { intent := .svcError []
    strategy := none
    search := fun _ => []
    scores := none
    insights := .failed []
    draft := none
    tweet := .failed [] }

/-- C1 counterexample: on an empty query the intent node sets
`error = "No user query provided"`, yet the graph run does not surface
that state: the research, filter, summarize, draft and review nodes all
still execute — the review node's flag is set and the surfaced error is
the drafting stage's "No summary available for drafting", which has
overwritten the intent error.  The orchestrator therefore does invoke
further stages after `error` is set. -/
theorem C1_error_not_halting_counterexample :
    ((IntentAgent.process oracleAllFail.intent (create_initial_state [] 1)).1.error
        = some .noUserQuery) ∧
    (WorkflowGraph.run 1 oracleAllFail (create_initial_state [] 1)).error
        = some .noSummary ∧
    (WorkflowGraph.run 1 oracleAllFail (create_initial_state [] 1)).review_requested
        = true :=
  ⟨rfl, rfl, rfl⟩

/-- C1 amended: the graph's edges are unconditional — no edge or node
consults `state["error"]`.  After a stage sets `error`, the following
nodes still run, each guarding only its own input precondition and
overwriting `error` with its own message; the surfaced state carries the
last stage's error, not the first, and the review node's side effect
shows it executed.  (Shown for every oracle and fuel on the empty-query
run: intent errors first, research then overwrites with its own error,
and the whole run surfaces the drafting error with the review flag set.) -/
theorem C1_amended_stages_run_after_error (fuel wid : Nat) (o : Oracles) :
    ((IntentAgent.process o.intent (create_initial_state [] wid)).1.error
        = some .noUserQuery) ∧
    ((ResearchAgent.process o.strategy o.search
        (IntentAgent.process o.intent (create_initial_state [] wid)).1).error
        = some .noTopic) ∧
    ((WorkflowGraph.run (fuel + 1) o (create_initial_state [] wid)).error
        = some .noSummary) ∧
    ((WorkflowGraph.run (fuel + 1) o (create_initial_state [] wid)).review_requested
        = true) :=
  ⟨rfl, rfl, rfl, rfl⟩

/-! ### C7: what the research stage puts on the state -/

def dupPostA : Post := { post_id := ['x'], engagement_score := 5 }

def dupPostB : Post := { post_id := ['x'], engagement_score := 3 }

def c7State : WorkflowState := { create_initial_state ['q'] 1 with topic := some ['t'] }

/-- C7 counterexample: two search results sharing the source id "x" both
end up on the state: the in-memory candidate list is not deduplicated by
item id (first-occurrence-wins would have kept a single "x"). -/
theorem C7_dedup_counterexample :
    ((ResearchAgent.process none (fun _ => [dupPostA, dupPostB]) c7State).raw_tweets.getD
        []).map Post.post_id = [['x'], ['x']] := by
  decide

/-- C7 amended: the candidate list placed on the state is a permutation
of the merged search results — nothing is removed, so duplicate ids
persist — sorted descending by `engagement_score` (stable sort); and the
stage does not touch `error`.  Deduplication happens only in the
swallowed-exception persistence loop, not in memory. -/
theorem C7_amended_sorted_permutation (stratResp : Option StratJson)
    (search : Strategy → List Post) (s : WorkflowState)
    (h : s.topic.getD [] ≠ []) :
    ((ResearchAgent.process stratResp search s).raw_tweets.getD []).Perm
        (search (generate_research_strategy stratResp (s.topic.getD [])
          (s.scope.getD sLatest))) ∧
    ((ResearchAgent.process stratResp search s).raw_tweets.getD []).Pairwise
        (fun a b => b.engagement_score ≤ a.engagement_score) ∧
    (ResearchAgent.process stratResp search s).error = s.error := by
  have hres : ResearchAgent.process stratResp search s
      = { s with
            raw_tweets := some (sortDescBy (fun p => p.engagement_score)
              (search (generate_research_strategy stratResp (s.topic.getD [])
                (s.scope.getD sLatest))))
            current_step := .RESEARCH } := by
    simp only [ResearchAgent.process]
    rw [if_neg h]
  rw [hres]
  exact ⟨sortDescBy_perm _ _, sortDescBy_sorted _ _, rfl⟩

/-- Witness for C7's amended theorem on a concrete out-of-order search
result with duplicate ids. -/
theorem C7_amended_witness :
    ((ResearchAgent.process none (fun _ => [dupPostB, dupPostA]) c7State).raw_tweets.getD
        []).Perm [dupPostB, dupPostA] ∧
    ((ResearchAgent.process none (fun _ => [dupPostB, dupPostA]) c7State).raw_tweets.getD
        []).Pairwise (fun a b => b.engagement_score ≤ a.engagement_score) ∧
    (ResearchAgent.process none (fun _ => [dupPostB, dupPostA]) c7State).error
        = c7State.error :=
  C7_amended_sorted_permutation none (fun _ => [dupPostB, dupPostA]) c7State (by decide)

/-! ### C8 and C9: intent-stage guards and defaults -/

def c8State : WorkflowState := create_initial_state ['q'] 1

/-- C8 counterexample: a decoded intent response with no topic field
does not fail the intent stage — no error is recorded there; the topic
silently defaults to the empty string (while scope and tone take their
documented defaults). -/
theorem C8_missing_topic_counterexample :
    ((IntentAgent.process (.ok {}) c8State).1.error = none) ∧
    ((IntentAgent.process (.ok {}) c8State).1.topic = some []) ∧
    ((IntentAgent.process (.ok {}) c8State).1.scope = some sLatest) ∧
    ((IntentAgent.process (.ok {}) c8State).1.tone = some sInformative) :=
  ⟨rfl, rfl, rfl, rfl⟩

/-- C8 amended: for a decoded intent response, an absent tone defaults
to "informative" and an absent scope to "latest" without failing, as
claimed — but an absent topic also does not fail the intent stage: it
defaults to the empty string with `error` untouched, and the failure
only surfaces one stage later, when research errors on the empty topic. -/
theorem C8_amended_topic_default (s : WorkflowState) (j : IntentJson)
    (stratResp : Option StratJson) (search : Strategy → List Post)
    (h : s.user_query ≠ []) :
    ((IntentAgent.process (.ok j) s).1.error = s.error) ∧
    ((IntentAgent.process (.ok j) s).1.topic = some (j.topic.getD [])) ∧
    ((IntentAgent.process (.ok j) s).1.scope = some (j.scope.getD sLatest)) ∧
    ((IntentAgent.process (.ok j) s).1.tone = some (j.tone.getD sInformative)) ∧
    (j.topic = none →
      (ResearchAgent.process stratResp search (IntentAgent.process (.ok j) s).1).error
        = some .noTopic) := by
  have hp : IntentAgent.process (.ok j) s
      = ({ s with
            topic := some (j.topic.getD [])
            scope := some (j.scope.getD sLatest)
            tone := some (j.tone.getD sInformative)
            current_step := .INTENT_UNDERSTANDING }, true) := by
    simp only [IntentAgent.process]
    rw [if_neg h]
  rw [hp]
  refine ⟨rfl, rfl, rfl, rfl, ?_⟩
  intro ht
  simp [ResearchAgent.process, ht]

/-- Witness for C8's amended theorem: a non-empty query with a fully
absent intent object. -/
theorem C8_amended_witness :
    ((IntentAgent.process (.ok {}) c8State).1.error = c8State.error) ∧
    ((IntentAgent.process (.ok {}) c8State).1.topic
        = some ((({} : IntentJson)).topic.getD [])) ∧
    ((IntentAgent.process (.ok {}) c8State).1.scope
        = some ((({} : IntentJson)).scope.getD sLatest)) ∧
    ((IntentAgent.process (.ok {}) c8State).1.tone
        = some ((({} : IntentJson)).tone.getD sInformative)) ∧
    ((({} : IntentJson)).topic = none →
      (ResearchAgent.process none (fun _ => [])
          (IntentAgent.process (.ok {}) c8State).1).error = some .noTopic) :=
  C8_amended_topic_default c8State {} none (fun _ => []) (by decide)

def c9State : WorkflowState := create_initial_state [' '] 1

/-- C9 counterexample: a whitespace-only query is truthy in Python, so
the intent stage does not fail fast: the reasoning service is invoked
(second component `true`) and no empty-input error is recorded. -/
theorem C9_whitespace_query_counterexample :
    ((IntentAgent.process (.ok {}) c9State).2 = true) ∧
    ((IntentAgent.process (.ok {}) c9State).1.error = none) :=
  ⟨rfl, rfl⟩

/-- C9 amended: only the exactly-empty query fails fast: when
`user_query` is the empty string the stage records the empty-input error
and makes no reasoning-service call, for every possible response; a
whitespace-only query instead proceeds to invoke the service. -/
theorem C9_amended_empty_query_fast_fail (s : WorkflowState)
    (resp : LLMResult IntentJson) (h : s.user_query = []) :
    ((IntentAgent.process resp s).1.error = some .noUserQuery) ∧
    ((IntentAgent.process resp s).2 = false) := by
  simp [IntentAgent.process, h]

/-- Witness for C9's amended theorem at the empty query. -/
theorem C9_amended_witness :
    ((IntentAgent.process (.ok {}) (create_initial_state [] 1)).1.error
        = some .noUserQuery) ∧
    ((IntentAgent.process (.ok {}) (create_initial_state [] 1)).2 = false) :=
  C9_amended_empty_query_fast_fail (create_initial_state [] 1) (.ok {}) rfl

/-! ### C10: the review branch decision -/

/-- C10: in `_should_publish`, approval takes precedence: any state with
the approved flag set routes to publish (whatever `revision_requested`
is); the revise edge is taken only when approved is unset and
`revision_requested` is set; and the terminal end is taken only when
both are unset. -/
theorem C10_review_routing (s : WorkflowState) :
    (s.approved = true → WorkflowGraph.should_publish s = Route.publish) ∧
    (s.approved = false → s.revision_requested = true →
      WorkflowGraph.should_publish s = Route.revise) ∧
    (s.approved = false → s.revision_requested = false →
      WorkflowGraph.should_publish s = Route.goEnd) := by
  refine ⟨fun h => ?_, fun h h2 => ?_, fun h h2 => ?_⟩ <;>
    simp [WorkflowGraph.should_publish, h, *]

/-- Witness for C10 at a state with both flags set: publish wins. -/
theorem C10_review_routing_witness :
    WorkflowGraph.should_publish
        { create_initial_state ['q'] 1 with approved := true, revision_requested := true }
      = Route.publish :=
  (C10_review_routing
    { create_initial_state ['q'] 1 with approved := true, revision_requested := true }).1
    rfl
